import Mathlib

/-!
Shallow embedding of the litesdcard PHY core (`src/sdcard/phy/sdphy.py`).

Each Migen module is embedded as a state structure plus a step function
computing the registered state after one clock edge, and combinational
outputs as functions of the current state and inputs.  Machine integers are
`Nat` with explicit `% 2 ^ w` wherever the hardware register width can
truncate a written value.  Signals driven by modules whose sources are not
part of the repository snapshot (the CRC generator/checker cores imported
from `sdcard.core`) appear as environment inputs, except where a claim
depends on their function, in which case they are modelled from the spec and
marked as such.
-/

namespace LiteSDCard

/-! ## Stream constants (`sdphy.py` lines 8-42)

`SDCARD_STREAM_CMD = 0`, `SDCARD_STREAM_DATA = 1`,
`SDCARD_STREAM_READ = 0`, `SDCARD_STREAM_WRITE = 1`,
`SDCARD_STREAM_XFER = 0`, `SDCARD_STREAM_CFG_TIMEOUT_CMD_HH = 1` (.. LL = 4),
`SDCARD_STREAM_CFG_TIMEOUT_DATA_HH = 5` (.. LL = 8),
`SDCARD_STREAM_CFG_BLKSIZE_H = 9`, `_L = 10`, `SDCARD_STREAM_CFG_VOLTAGE = 11`,
status `OK = 0`, `TIMEOUT = 1`, `DATAACCEPTED = 2`, `CRCERROR = 5`,
`WRITEERROR = 6`; response kinds `NONE = 0`, `SHORT = 1`, `LONG = 2`;
data transfer `NONE = 0`, `READ = 1`, `WRITE = 2`.
These are used as numeric literals below. -/

/-! ## CRC7 (modelled from the spec)

The CRC modules `CRC`/`CRCChecker` are imported from `sdcard.core.crcgeneric`,
whose source is not part of the repository snapshot. -/

/-- Modelled from the spec: one step of the 7-bit CRC shift register for the
polynomial x^7 + x^3 + 1 (the `CRC(9, 7, _)` instances of `sdphy.py`),
consuming one input bit `b`. -/
def crc7Step (crc b : ℕ) : ℕ :=
  let fb := ((crc >>> 6) + b) % 2
  let sh := (crc * 2) % 128
  if fb = 1 then sh ^^^ 9 else sh

/-- Modelled from the spec: run the CRC7 shift register over the `n`
least-significant bits of `val`, most-significant bit first, starting from
accumulator `crc`. -/
def crc7Run (val : ℕ) : ℕ → ℕ → ℕ
  | 0, crc => crc
  | n + 1, crc => crc7Run val n (crc7Step crc ((val >>> n) % 2))

/-- Modelled from the spec: the command-response CRC checker
(`CRCChecker(9, 7, 120)`).  It recomputes CRC7 over the first 113 bits of the
120-bit response value `val` (its most-significant 113 bits) and compares the
remainder with the embedded 7-bit check value `check`, yielding the `valid`
output wired into `cmdevt` bit 3 of `SDCtrl`. -/
def crc7checkerValid (val check : ℕ) : Bool :=
  crc7Run (val >>> 7) 113 0 = check % 128

/-- Modelled from the spec: CRC7 of the outgoing 40-bit command frame
`Cat(argument, command[8:14], 1, 0)` (`sdphy.py` line 100), i.e. the 32-bit
argument in the low bits, the 6-bit command index above it, then a 1 bit. -/
def crc7cmd (argument command : ℕ) : ℕ :=
  crc7Run (argument % 2 ^ 32 + (((command >>> 8) % 64) <<< 32) + (1 <<< 38)) 40 0

/-! ## SDCtrl (`sdphy.py` lines 44-322) -/

/-- The `SDCtrl` FSM states (`sdphy.py` lines 116-322). -/
inductive CtrlFsm where
  | IDLE
  | CFG_TIMEOUT_DATA
  | CFG_TIMEOUT_CMD
  | CFG_BLKSIZE
  | CFG_VOLTAGE
  | SEND_CMD
  | RECV_RESP
  | RECV_DATA
  | SEND_DATA
  deriving DecidableEq

/-- Registered state of `SDCtrl`: the FSM state plus every signal written
with `NextValue` (`sdphy.py` lines 72-96, 134-135, 244, 256). -/
structure CtrlState where
  fsm : CtrlFsm
  csel : ℕ
  cmddone : Bool
  datadone : Bool
  blkcnt : ℕ
  pos : ℕ
  cerrtimeout : Bool
  cerrcrc_en : Bool
  derrtimeout : Bool
  derrwrite : Bool
  derrread_en : Bool
  response : ℕ
  crc7check : ℕ
  debug : ℕ
  deriving DecidableEq

/-- Reset state of `SDCtrl`: FSM in IDLE, `cmddone` and `datadone` reset
to 1 (`Signal(reset=1)`, `sdphy.py` lines 75-76), everything else 0. -/
def ctrlReset : CtrlState :=
  { fsm := .IDLE, csel := 0, cmddone := true, datadone := true, blkcnt := 0,
    pos := 0, cerrtimeout := false, cerrcrc_en := false, derrtimeout := false,
    derrwrite := false, derrread_en := false, response := 0, crc7check := 0,
    debug := 0 }

/-- Per-cycle inputs of `SDCtrl`: the CSR storage values and write strobes,
the `sink` stream from the PHY, the `source` stream's `ready`, and the ports
of the CRC16 generator/checker cores (whose internals are outside the
snapshot). -/
structure CtrlInput where
  argument : ℕ
  command : ℕ
  datatimeout : ℕ
  cmdtimeout : ℕ
  voltage : ℕ
  blocksize : ℕ
  blockcount : ℕ
  datatimeout_re : Bool
  cmdtimeout_re : Bool
  voltage_re : Bool
  blocksize_re : Bool
  command_re : Bool
  sink_valid : Bool
  sink_data : ℕ
  sink_ctrl : ℕ
  sink_last : Bool
  source_ready : Bool
  crc16src_valid : Bool
  crc16src_last : Bool
  crc16src_data : ℕ
  crc16checker_sink_ready : Bool
  crc16checker_valid : Bool
  deriving DecidableEq

/-- All-zero / all-false input, used to build concrete inputs. -/
def inp0 : CtrlInput :=
  { argument := 0, command := 0, datatimeout := 0, cmdtimeout := 0,
    voltage := 0, blocksize := 0, blockcount := 0, datatimeout_re := false,
    cmdtimeout_re := false, voltage_re := false, blocksize_re := false,
    command_re := false, sink_valid := false, sink_data := 0, sink_ctrl := 0,
    sink_last := false, source_ready := false, crc16src_valid := false,
    crc16src_last := false, crc16src_data := 0,
    crc16checker_sink_ready := false, crc16checker_valid := false }

/-- `waitresp = command.storage[0:2]` (`sdphy.py` line 92). -/
def waitresp (i : CtrlInput) : ℕ := i.command % 4

/-- `dataxfer = command.storage[5:7]` (`sdphy.py` line 93). -/
def dataxfer (i : CtrlInput) : ℕ := (i.command >>> 5) % 4

/-- `status = sink.ctrl[1:5]` (`sdphy.py` line 98). -/
def status (i : CtrlInput) : ℕ := (i.sink_ctrl >>> 1) % 16

/-- One clock step of the `SDCtrl` FSM (`sdphy.py` lines 116-322): the
registered state after the edge, given the current state and inputs. -/
def ctrlStep (s : CtrlState) (i : CtrlInput) : CtrlState :=
  match s.fsm with
  | .IDLE =>
    if i.datatimeout_re then { s with pos := 0, fsm := .CFG_TIMEOUT_DATA }
    else if i.cmdtimeout_re then { s with pos := 0, fsm := .CFG_TIMEOUT_CMD }
    else if i.voltage_re then { s with pos := 0, fsm := .CFG_VOLTAGE }
    else if i.blocksize_re then { s with pos := 0, fsm := .CFG_BLKSIZE }
    else if i.command_re then
      { s with pos := 0, cmddone := false, cerrtimeout := false,
               cerrcrc_en := false, datadone := false, derrtimeout := false,
               derrwrite := false, derrread_en := false, debug := 0,
               response := 0, fsm := .SEND_CMD }
    else { s with pos := 0 }
  | .CFG_TIMEOUT_DATA =>
    if i.source_ready then
      { s with pos := (s.pos + 1) % 4,
               fsm := if s.pos = 3 then .IDLE else .CFG_TIMEOUT_DATA }
    else s
  | .CFG_TIMEOUT_CMD =>
    if i.source_ready then
      { s with pos := (s.pos + 1) % 4,
               fsm := if s.pos = 3 then .IDLE else .CFG_TIMEOUT_CMD }
    else s
  | .CFG_BLKSIZE =>
    if i.source_ready then
      { s with pos := (s.pos + 1) % 4,
               fsm := if s.pos = 1 then .IDLE else .CFG_BLKSIZE }
    else s
  | .CFG_VOLTAGE =>
    if i.source_ready then { s with fsm := .IDLE } else s
  | .SEND_CMD =>
    if i.source_ready then
      if s.csel < 5 then { s with csel := s.csel + 1 }
      else if waitresp i = 0 then
        { s with csel := 0, cmddone := true, fsm := .IDLE }
      else
        { s with csel := 0, cerrcrc_en := true, fsm := .RECV_RESP }
    else s
  | .RECV_RESP =>
    if i.sink_valid then
      if i.sink_ctrl % 2 = 0 then
        if status i = 1 then
          { s with cerrtimeout := true, cmddone := true, datadone := true,
                   fsm := .IDLE }
        else if i.sink_last then
          if dataxfer i = 1 then
            { s with crc7check := (i.sink_data >>> 1) % 128, cmddone := true,
                     derrread_en := true, fsm := .RECV_DATA }
          else if dataxfer i = 2 then
            { s with crc7check := (i.sink_data >>> 1) % 128, cmddone := true,
                     fsm := .SEND_DATA }
          else
            { s with crc7check := (i.sink_data >>> 1) % 128, cmddone := true,
                     datadone := true, fsm := .IDLE }
        else
          { s with response := (s.response % 2 ^ 112) * 256 + i.sink_data % 256 }
      else s
    else s
  | .RECV_DATA =>
    if i.sink_valid ∧ status i = 1 then
      { s with derrtimeout := true, blkcnt := 0, datadone := true, fsm := .IDLE }
    else if i.source_ready then
      if i.blockcount % 2 ^ 16 > s.blkcnt then { s with blkcnt := s.blkcnt + 1 }
      else { s with blkcnt := 0, datadone := true, fsm := .IDLE }
    else s
  | .SEND_DATA =>
    let s1 :=
      if i.crc16src_valid ∧ i.crc16src_last ∧ i.source_ready then
        if i.blockcount % 2 ^ 16 > s.blkcnt then { s with blkcnt := s.blkcnt + 1 }
        else { s with blkcnt := 0, datadone := true, fsm := .IDLE }
      else s
    if i.sink_valid then
      { s1 with debug := status i,
                derrwrite := if status i ≠ 2 then true else s1.derrwrite }
    else s1

/-- `cmdevt.status` bit 0: `cmddone` (`sdphy.py` line 94). -/
def cmdevtDone (s : CtrlState) : Bool := s.cmddone

/-- `cmdevt.status` bit 2: `cerrtimeout` (`sdphy.py` line 94). -/
def cmdevtTimeout (s : CtrlState) : Bool := s.cerrtimeout

/-- `cmdevt.status` bit 3: `cerrcrc_en & ~crc7checker.valid`
(`sdphy.py` line 94), with the checker valid output modelled from the spec. -/
def cmdevtCrcErr (s : CtrlState) : Bool :=
  s.cerrcrc_en && !(crc7checkerValid s.response s.crc7check)

/-- `dataevt.status` bit 0: `datadone` (`sdphy.py` line 95). -/
def dataevtDone (s : CtrlState) : Bool := s.datadone

/-- `dataevt.status` bit 1: `derrwrite` (`sdphy.py` line 95). -/
def dataevtWriteErr (s : CtrlState) : Bool := s.derrwrite

/-- `dataevt.status` bit 2: `derrtimeout` (`sdphy.py` line 95). -/
def dataevtTimeout (s : CtrlState) : Bool := s.derrtimeout

/-- `dataevt.status` bit 3: `derrread_en & ~crc16checker.valid`
(`sdphy.py` line 95); the CRC16 checker's valid output is an environment
input since that core is outside the snapshot. -/
def dataevtCrcErr (s : CtrlState) (i : CtrlInput) : Bool :=
  s.derrread_en && !i.crc16checker_valid

/-- Combinational `source.valid` of `SDCtrl` per state. -/
def sourceValid (s : CtrlState) (i : CtrlInput) : Bool :=
  match s.fsm with
  | .IDLE => false
  | .SEND_DATA => i.crc16src_valid
  | _ => true

/-- Combinational `source.data` of `SDCtrl` per state (`ccases`, `dtcases`,
`ctcases`, `blkcases` and the per-state assignments of `sdphy.py`). -/
def sourceData (s : CtrlState) (i : CtrlInput) : ℕ :=
  match s.fsm with
  | .IDLE => 0
  | .CFG_TIMEOUT_DATA =>
    if s.pos ≤ 3 then (i.datatimeout >>> (24 - 8 * s.pos)) % 256 else 0
  | .CFG_TIMEOUT_CMD =>
    if s.pos ≤ 3 then (i.cmdtimeout >>> (24 - 8 * s.pos)) % 256 else 0
  | .CFG_BLKSIZE =>
    if s.pos ≤ 1 then (i.blocksize >>> (8 - 8 * s.pos)) % 256 else 0
  | .CFG_VOLTAGE => i.voltage % 256
  | .SEND_CMD =>
    if s.csel = 0 then (i.command >>> 8) % 64 + 64
    else if s.csel ≤ 4 then (i.argument >>> (32 - 8 * s.csel)) % 256
    else if s.csel = 5 then (1 + 2 * crc7cmd i.argument i.command) % 256
    else 0
  | .RECV_RESP =>
    if waitresp i = 1 then 5 else if waitresp i = 2 then 16 else 0
  | .RECV_DATA => 0
  | .SEND_DATA => i.crc16src_data % 256

/-- Combinational `source.last` of `SDCtrl` per state. -/
def sourceLast (s : CtrlState) (i : CtrlInput) : Bool :=
  match s.fsm with
  | .SEND_CMD => s.csel = 5 ∧ waitresp i = 0
  | .RECV_RESP => dataxfer i = 0
  | .RECV_DATA => i.blockcount % 2 ^ 16 = s.blkcnt
  | .SEND_DATA => i.crc16src_last
  | _ => false

/-- Combinational `mode` field driven onto `source.ctrl[2:8]` per state. -/
def sourceMode (s : CtrlState) (_i : CtrlInput) : ℕ :=
  match s.fsm with
  | .CFG_TIMEOUT_DATA => if s.pos ≤ 3 then 5 + s.pos else 0
  | .CFG_TIMEOUT_CMD => if s.pos ≤ 3 then 1 + s.pos else 0
  | .CFG_BLKSIZE => if s.pos ≤ 1 then 9 + s.pos else 0
  | .CFG_VOLTAGE => 11
  | _ => 0

/-- Combinational `cmddata` bit driven onto `source.ctrl[0]` per state
(1 = DATA channel in RECV_DATA / SEND_DATA, 0 elsewhere). -/
def sourceCmddata (s : CtrlState) : ℕ :=
  match s.fsm with
  | .RECV_DATA => 1
  | .SEND_DATA => 1
  | _ => 0

/-- Combinational `rdwr` bit driven onto `source.ctrl[1]` per state
(1 = WRITE in SEND_CMD / SEND_DATA, 0 elsewhere). -/
def sourceRdwr (s : CtrlState) : ℕ :=
  match s.fsm with
  | .SEND_CMD => 1
  | .SEND_DATA => 1
  | _ => 0

/-- Combinational `source.ctrl = Cat(cmddata, rdwr, mode)`
(`sdphy.py` line 97). -/
def sourceCtrl (s : CtrlState) (i : CtrlInput) : ℕ :=
  sourceCmddata s + 2 * sourceRdwr s + 4 * sourceMode s i

/-- Combinational `sink.ready` of `SDCtrl` per state. -/
def sinkReady (s : CtrlState) (i : CtrlInput) : Bool :=
  match s.fsm with
  | .RECV_RESP => i.sink_valid
  | .RECV_DATA =>
    if i.sink_valid ∧ status i = 1 then true
    else if i.sink_ctrl % 2 = 1 ∧ status i = 0 then i.crc16checker_sink_ready
    else false
  | .SEND_DATA => i.sink_valid
  | _ => false

/-- Combinational drive of the CRC16 checker's `sink.valid` (manual connect
in RECV_DATA, `sdphy.py` lines 270-276). -/
def crc16checkerSinkValid (s : CtrlState) (i : CtrlInput) : Bool :=
  s.fsm = .RECV_DATA ∧ i.sink_ctrl % 2 = 1 ∧ status i = 0 ∧ i.sink_valid

/-- Combinational drive of the CRC16 checker's `sink.data` in RECV_DATA. -/
def crc16checkerSinkData (s : CtrlState) (i : CtrlInput) : ℕ :=
  if s.fsm = .RECV_DATA ∧ i.sink_ctrl % 2 = 1 ∧ status i = 0 then
    i.sink_data % 256
  else 0

/-- Combinational `crc16.source.ready` (driven only in SEND_DATA,
`sdphy.py` line 303). -/
def crc16srcReady (s : CtrlState) (i : CtrlInput) : Bool :=
  s.fsm = .SEND_DATA ∧ i.source_ready

/-- Run `SDCtrl` for `n` clock steps under a constant input. -/
def ctrlRunN (i : CtrlInput) (n : ℕ) (s : CtrlState) : CtrlState :=
  (fun t => ctrlStep t i)^[n] s

/-- Run `SDCtrl` over a list of per-cycle inputs. -/
def ctrlRun (s : CtrlState) : List CtrlInput → CtrlState
  | [] => s
  | i :: is => ctrlRun (ctrlStep s i) is

/-- Frames (data, ctrl pairs) emitted by `SDCtrl.source` over `n` cycles
under a constant input whose `source_ready` is asserted (so every presented
frame is accepted). -/
def ctrlEmission (s : CtrlState) (i : CtrlInput) : ℕ → List (ℕ × ℕ)
  | 0 => []
  | n + 1 => (sourceData s i, sourceCtrl s i) :: ctrlEmission (ctrlStep s i) i n

/-! ## Bit-slice assignment

Migen `x[lo:lo+w].eq(b)` on a register: bits below `lo` and from `lo + w` up
are kept, bits `lo .. lo+w-1` are replaced by the low `w` bits of `b`. -/

/-- Replace bits `lo .. lo+w-1` of `x` by the low `w` bits of `b`. -/
def setBits (x lo w b : ℕ) : ℕ :=
  x % 2 ^ lo + (b % 2 ^ w) * 2 ^ lo + ((x >>> (lo + w)) <<< (lo + w))

/-! ## SDPHYCFG (`sdphy.py` lines 324-356) -/

/-- Registered configuration copies held by the PHY-side latch `SDPHYCFG`. -/
structure CfgState where
  cfgdtimeout : ℕ
  cfgctimeout : ℕ
  cfgblksize : ℕ
  cfgvoltage : ℕ
  deriving DecidableEq

/-- Reset state of `SDPHYCFG` (all signals reset to 0). -/
def cfgReset : CfgState :=
  { cfgdtimeout := 0, cfgctimeout := 0, cfgblksize := 0, cfgvoltage := 0 }

/-- One clock step of `SDPHYCFG` (`sdphy.py` lines 339-356): when the sink is
valid, dispatch on `mode = sink.ctrl[2:8]` and write `sink.data` into the
byte offset of the matching configuration register (`cfgcases`). -/
def cfgStep (c : CfgState) (valid : Bool) (data ctrl : ℕ) : CfgState :=
  if valid then
    let mode := (ctrl >>> 2) % 64
    if 5 ≤ mode ∧ mode ≤ 8 then
      { c with cfgdtimeout := setBits c.cfgdtimeout (24 - 8 * (mode - 5)) 8 data }
    else if 1 ≤ mode ∧ mode ≤ 4 then
      { c with cfgctimeout := setBits c.cfgctimeout (24 - 8 * (mode - 1)) 8 data }
    else if 9 ≤ mode ∧ mode ≤ 10 then
      { c with cfgblksize := setBits c.cfgblksize (8 - 8 * (mode - 9)) 8 data }
    else if mode = 11 then { c with cfgvoltage := data % 2 }
    else c
  else c

/-- `SDPHYCFG.sink.ready = sink.valid` (`sdphy.py` line 349): a valid byte is
accepted immediately. -/
def cfgSinkReady (valid : Bool) : Bool := valid

/-- Run `SDPHYCFG` over a list of valid (data, ctrl) frames. -/
def cfgRun (c : CfgState) : List (ℕ × ℕ) → CfgState
  | [] => c
  | f :: fs => cfgRun (cfgStep c true f.1 f.2) fs

/-! ## SDPHYCMDRFB, the bit sampler (`sdphy.py` lines 372-420) -/

/-- The bit-sampler FSM states. -/
inductive RfbFsm where
  | IDLE
  | READSTART
  | READ
  deriving DecidableEq

/-- Registered state of `SDPHYCMDRFB`: 3-bit bit position `sel` and the
shift register `data` (bits 0-6 only are ever written, bit 7 stays 0). -/
structure RfbState where
  fsm : RfbFsm
  sel : ℕ
  data : ℕ
  deriving DecidableEq

/-- Reset state of `SDPHYCMDRFB`. -/
def rfbReset : RfbState := { fsm := .IDLE, sel := 0, data := 0 }

/-- Per-cycle inputs of `SDPHYCMDRFB`: the `enable` signal from the command
reader, the sampled command pad bit `cmd_i`, and the consumer's `ready`
(the depth-2 FIFO's `sink.ready`). -/
structure RfbInput where
  enable : Bool
  cmd_i : ℕ
  source_ready : Bool
  deriving DecidableEq

/-- Combinational `source.valid` of the bit sampler: asserted only in READ
with `sel = 7` while enabled (`sdphy.py` lines 409-415). -/
def rfbSourceValid (s : RfbState) (i : RfbInput) : Bool :=
  s.fsm = .READ ∧ i.enable ∧ s.sel = 7

/-- Combinational `source.data = Cat(pads.cmd.i, data)` of the bit sampler,
driven when valid (`sdphy.py` line 414), truncated to the 8-bit endpoint. -/
def rfbSourceData (s : RfbState) (i : RfbInput) : ℕ :=
  if rfbSourceValid s i then (i.cmd_i % 2 + 2 * s.data) % 256 else 0

/-- One clock step of the `SDPHYCMDRFB` FSM (`sdphy.py` lines 392-420). -/
def rfbStep (s : RfbState) (i : RfbInput) : RfbState :=
  match s.fsm with
  | .IDLE => if i.enable then { s with sel := 0, fsm := .READSTART } else s
  | .READSTART =>
    if !i.enable then { s with fsm := .IDLE }
    else if i.cmd_i % 2 = 0 then { s with data := 0, sel := 1, fsm := .READ }
    else s
  | .READ =>
    if !i.enable then { s with fsm := .IDLE }
    else if s.sel = 7 then { s with sel := 0 }
    else
      { s with data := setBits s.data (6 - s.sel) 1 (i.cmd_i % 2),
               sel := (s.sel + 1) % 8 }

/-! ## SDPHYCMDR, the command reader (`sdphy.py` lines 422-524)

The depth-2 `stream.SyncFIFO` between the sampler and the reader FSM is an
external library component; its `source.valid` facing the reader appears
here as the input `fifo_valid`. -/

/-- The command-reader FSM states. -/
inductive CmdrFsm where
  | IDLE
  | CMD_READSTART
  | CMD_READ
  | CMD_CLK8
  | TIMEOUT
  deriving DecidableEq

/-- Registered state of `SDPHYCMDR`. -/
structure CmdrState where
  fsm : CmdrFsm
  ctimeout : ℕ
  cread : ℕ
  ctoread : ℕ
  cnt : ℕ
  deriving DecidableEq

/-- Reset state of `SDPHYCMDR`. -/
def cmdrReset : CmdrState :=
  { fsm := .IDLE, ctimeout := 0, cread := 0, ctoread := 0, cnt := 0 }

/-- Per-cycle inputs of `SDPHYCMDR`: its `sink` stream (the read request),
the FIFO's output side, its `source` stream's `ready`, and the configured
command timeout `cfg.cfgctimeout` (a 32-bit signal, masked at use). -/
structure CmdrInput where
  sink_valid : Bool
  sink_data : ℕ
  sink_last : Bool
  fifo_valid : Bool
  fifo_data : ℕ
  source_ready : Bool
  cfgctimeout : ℕ
  deriving DecidableEq

/-- One clock step of the `SDPHYCMDR` FSM (`sdphy.py` lines 456-524). -/
def cmdrStep (s : CmdrState) (i : CmdrInput) : CmdrState :=
  match s.fsm with
  | .IDLE =>
    if i.sink_valid then
      { s with ctimeout := 0, cread := 0, ctoread := i.sink_data % 256,
               fsm := .CMD_READSTART }
    else s
  | .CMD_READSTART =>
    { s with ctimeout := (s.ctimeout + 1) % 2 ^ 32,
             fsm :=
               if i.fifo_valid then .CMD_READ
               else if s.ctimeout > i.cfgctimeout % 2 ^ 32 then .TIMEOUT
               else .CMD_READSTART }
  | .CMD_READ =>
    if i.fifo_valid ∧ i.source_ready then
      if s.cread = s.ctoread then
        { s with cread := (s.cread + 1) % 256,
                 fsm := if i.sink_last then .CMD_CLK8 else .IDLE }
      else { s with cread := (s.cread + 1) % 256 }
    else s
  | .CMD_CLK8 =>
    if s.cnt < 7 then { s with cnt := s.cnt + 1 }
    else { s with cnt := 0, fsm := .IDLE }
  | .TIMEOUT =>
    if i.source_ready then { s with fsm := .IDLE } else s

/-- Combinational `source.valid` of `SDPHYCMDR`: the FIFO's valid in
CMD_READ, constant 1 in TIMEOUT. -/
def cmdrSourceValid (s : CmdrState) (i : CmdrInput) : Bool :=
  match s.fsm with
  | .CMD_READ => i.fifo_valid
  | .TIMEOUT => true
  | _ => false

/-- Combinational `status` field of `SDPHYCMDR.source.ctrl[1:5]`: OK (0) in
CMD_READ, TIMEOUT (1) in the TIMEOUT state, 0 elsewhere. -/
def cmdrStatus (s : CmdrState) : ℕ :=
  match s.fsm with
  | .TIMEOUT => 1
  | _ => 0

/-- Run `SDPHYCMDR` for `n` clock steps under a constant input. -/
def cmdrRunN (i : CmdrInput) (n : ℕ) (s : CmdrState) : CmdrState :=
  (fun t => cmdrStep t i)^[n] s

/-! ## Concrete inputs used by the closed counterexample and witness runs -/

/-- Command write accepted in IDLE with `command = 0` (response kind NONE,
data transfer NONE). -/
def iCmdNone : CtrlInput := { inp0 with command_re := true }

/-- Idle-storage input with `source_ready` asserted and `command = 0`. -/
def iRdy0 : CtrlInput := { inp0 with source_ready := true }

/-- Command write accepted in IDLE with `command = 1` (response kind SHORT,
data transfer NONE). -/
def iCmdShort : CtrlInput := { inp0 with command_re := true, command := 1 }

/-- `source_ready` asserted while `command` storage holds 1. -/
def iRdyShort : CtrlInput := { inp0 with source_ready := true, command := 1 }

/-- A non-last CMD-channel response byte `0xFF` with status OK. -/
def iRespByte : CtrlInput :=
  { inp0 with command := 1, sink_valid := true, sink_ctrl := 0, sink_data := 255 }

/-- The final CMD-channel response byte, carrying CRC7 field 9 in bits 1-7
(`sink_data = 18`), with `last` set and status OK. -/
def iRespLast : CtrlInput :=
  { inp0 with command := 1, sink_valid := true, sink_ctrl := 0,
              sink_data := 18, sink_last := true }

/-- A SEND_DATA state with a fresh command cycle (`datadone` cleared). -/
def sSendData : CtrlState := { ctrlReset with fsm := .SEND_DATA, datadone := false }

/-- SEND_DATA input: CRC16 trailer byte accepted and a card ack with status
OK (≠ DATA_ACCEPTED) every cycle, `blockcount = 2`. -/
def iSendAck : CtrlInput :=
  { inp0 with source_ready := true, crc16src_valid := true,
              crc16src_last := true, sink_valid := true, blockcount := 2 }

/-- Command-reader waiting state: CMD_READSTART with the cycle counter
cleared, as produced by accepting a read request in IDLE. -/
def sReadStart : CmdrState := { cmdrReset with fsm := .CMD_READSTART }

/-- Command-reader input with no sampled byte ever available and the
maximal 32-bit command-timeout threshold `2 ^ 32 - 1`. -/
def iMaxT : CmdrInput :=
  { sink_valid := false, sink_data := 0, sink_last := false,
    fifo_valid := false, fifo_data := 0, source_ready := false,
    cfgctimeout := 2 ^ 32 - 1 }

/-- Command-reader input with no sampled byte available and command-timeout
threshold 2. -/
def iT2 : CmdrInput :=
  { sink_valid := false, sink_data := 0, sink_last := false,
    fifo_valid := false, fifo_data := 0, source_ready := false,
    cfgctimeout := 2 }

/-- The same input with the four configuration write strobes cleared; used
to state that non-IDLE states do not service configuration writes. -/
def clearCfgStrobes (i : CtrlInput) : CtrlInput :=
  { i with datatimeout_re := false, cmdtimeout_re := false,
           voltage_re := false, blocksize_re := false }

/-- The IDLE-state command-acceptance condition of `SDCtrl` (`sdphy.py`
lines 116-137): the `command` CSR write strobe fires and none of the
higher-priority configuration strobes does. -/
def cmdAccept (s : CtrlState) (i : CtrlInput) : Prop :=
  s.fsm = .IDLE ∧ i.datatimeout_re = false ∧ i.cmdtimeout_re = false ∧
  i.voltage_re = false ∧ i.blocksize_re = false ∧ i.command_re = true

instance (s : CtrlState) (i : CtrlInput) : Decidable (cmdAccept s i) := by
  unfold cmdAccept; infer_instance

/-! ## Generic run lemmas -/

theorem ctrlRunN_succ (i : CtrlInput) (n : ℕ) (s : CtrlState) :
    ctrlRunN i (n + 1) s = ctrlStep (ctrlRunN i n s) i := by
  simp [ctrlRunN, Function.iterate_succ_apply']

theorem ctrlRunN_zero (i : CtrlInput) (s : CtrlState) : ctrlRunN i 0 s = s := rfl

theorem cmdrRunN_succ (i : CmdrInput) (n : ℕ) (s : CmdrState) :
    cmdrRunN i (n + 1) s = cmdrStep (cmdrRunN i n s) i := by
  simp [cmdrRunN, Function.iterate_succ_apply']

theorem cmdrRunN_zero (i : CmdrInput) (s : CmdrState) : cmdrRunN i 0 s = s := rfl

theorem ctrlEmission_succ (s : CtrlState) (i : CtrlInput) (n : ℕ) :
    ctrlEmission s i (n + 1) =
      (sourceData s i, sourceCtrl s i) :: ctrlEmission (ctrlStep s i) i n := rfl

theorem ctrlEmission_zero (s : CtrlState) (i : CtrlInput) :
    ctrlEmission s i 0 = [] := rfl

/-- Writing the four bytes of a 32-bit value `v` (most-significant byte
first) into consecutive byte offsets of a register holding `c` reconstructs
`v`. -/
theorem setBits_bytes32 (c v : ℕ) (hc : c < 2 ^ 32) (hv : v < 2 ^ 32) :
    setBits (setBits (setBits (setBits c 24 8 ((v >>> 24) % 256)) 16 8
      ((v >>> 16) % 256)) 8 8 ((v >>> 8) % 256)) 0 8 (v % 256) = v := by
  simp [setBits, Nat.shiftRight_eq_div_pow, Nat.shiftLeft_eq]
  omega

/-- Writing the two bytes of a 16-bit value `v` (most-significant byte
first) into consecutive byte offsets of a register holding `c` reconstructs
`v`. -/
theorem setBits_bytes16 (c v : ℕ) (hc : c < 2 ^ 16) (hv : v < 2 ^ 16) :
    setBits (setBits c 8 8 ((v >>> 8) % 256)) 0 8 (v % 256) = v := by
  simp [setBits, Nat.shiftRight_eq_div_pow, Nat.shiftLeft_eq]
  omega

/-! ## Claim theorems -/

/-- C9: In the initial (reset) state, before any command has ever been
issued, both `cmdevt.done` and `dataevt.done` read 1 — the `cmddone` and
`datadone` signals reset to 1 — so a host polling done before the first
command sees it already set. -/
theorem C9_reset_done_set :
    cmdevtDone ctrlReset = true ∧ dataevtDone ctrlReset = true := by decide

/-- C6: In RECV_DATA, whenever a received frame is valid with status
TIMEOUT — for any state of the block loop, i.e. any `blkcnt` and any number
of transferred bytes — the same step latches `dataevt.timeout`, resets
`blkcnt` to 0 and transitions to IDLE, where no further block request is
presented (`source.valid` is deasserted). -/
theorem C6_recv_data_timeout_aborts (s : CtrlState) (i i' : CtrlInput)
    (hf : s.fsm = .RECV_DATA) (hv : i.sink_valid = true) (hs : status i = 1) :
    (ctrlStep s i).fsm = .IDLE ∧ dataevtTimeout (ctrlStep s i) = true ∧
    (ctrlStep s i).blkcnt = 0 ∧ (ctrlStep s i).datadone = true ∧
    sourceValid (ctrlStep s i) i' = false := by
  simp [ctrlStep, hf, hv, hs, dataevtTimeout, sourceValid]

/-- Witness for C6 at a concrete mid-loop state (`blkcnt = 3`) and a valid
DATA-channel frame with status TIMEOUT (`sink_ctrl = 3`). -/
theorem C6_recv_data_timeout_aborts_witness :
    (ctrlStep { ctrlReset with fsm := .RECV_DATA, blkcnt := 3 }
        { inp0 with sink_valid := true, sink_ctrl := 3 }).fsm = .IDLE ∧
    dataevtTimeout (ctrlStep { ctrlReset with fsm := .RECV_DATA, blkcnt := 3 }
        { inp0 with sink_valid := true, sink_ctrl := 3 }) = true ∧
    (ctrlStep { ctrlReset with fsm := .RECV_DATA, blkcnt := 3 }
        { inp0 with sink_valid := true, sink_ctrl := 3 }).blkcnt = 0 ∧
    (ctrlStep { ctrlReset with fsm := .RECV_DATA, blkcnt := 3 }
        { inp0 with sink_valid := true, sink_ctrl := 3 }).datadone = true ∧
    sourceValid (ctrlStep { ctrlReset with fsm := .RECV_DATA, blkcnt := 3 }
        { inp0 with sink_valid := true, sink_ctrl := 3 }) inp0 = false :=
  C6_recv_data_timeout_aborts _ _ inp0 (by decide) (by decide) (by decide)

set_option maxRecDepth 100000 in
/-- C2 counterexample: the claim says every `EventStatus` flag, in
particular the crc-error bits, once set stays set until the next command
write.  In the run below a SHORT-response command is issued from reset; after
the first response byte `0xFF` the `cmdevt` crc-error bit reads 1, and one
step later — the final response byte, with no command write
(`command_re = false`) — it reads 0 again, because that bit is the
combinational `cerrcrc_en & ~crc7checker.valid`, not a latched register. -/
theorem C2_counterexample :
    cmdevtCrcErr (ctrlRun ctrlReset
      [iCmdShort, iRdyShort, iRdyShort, iRdyShort, iRdyShort, iRdyShort,
       iRdyShort, iRespByte]) = true ∧
    iRespLast.command_re = false ∧
    cmdevtCrcErr (ctrlStep (ctrlRun ctrlReset
      [iCmdShort, iRdyShort, iRdyShort, iRdyShort, iRdyShort, iRdyShort,
       iRdyShort, iRespByte]) iRespLast) = false := by decide

/-- C2 (amended): the seven registered event bits of `SDCtrl` — `cmddone`,
`datadone`, `cerrtimeout`, `derrtimeout`, `derrwrite` and the crc-error
enables `cerrcrc_en`, `derrread_en` — are latched: a command write accepted
in IDLE clears all of them, and any other step leaves a set bit set.  The
two crc-error CSR bits themselves are combinational
(`enable & ~checker.valid`) and can deassert without a new command, as the
counterexample shows. -/
theorem C2_latched_flags (s : CtrlState) (i : CtrlInput) :
    (cmdAccept s i →
      (ctrlStep s i).cmddone = false ∧ (ctrlStep s i).datadone = false ∧
      (ctrlStep s i).cerrtimeout = false ∧ (ctrlStep s i).derrtimeout = false ∧
      (ctrlStep s i).derrwrite = false ∧ (ctrlStep s i).cerrcrc_en = false ∧
      (ctrlStep s i).derrread_en = false) ∧
    (¬cmdAccept s i →
      (s.cmddone = true → (ctrlStep s i).cmddone = true) ∧
      (s.datadone = true → (ctrlStep s i).datadone = true) ∧
      (s.cerrtimeout = true → (ctrlStep s i).cerrtimeout = true) ∧
      (s.derrtimeout = true → (ctrlStep s i).derrtimeout = true) ∧
      (s.derrwrite = true → (ctrlStep s i).derrwrite = true) ∧
      (s.cerrcrc_en = true → (ctrlStep s i).cerrcrc_en = true) ∧
      (s.derrread_en = true → (ctrlStep s i).derrread_en = true)) := by
  constructor
  · rintro ⟨hf, h1, h2, h3, h4, h5⟩
    simp [ctrlStep, hf, h1, h2, h3, h4, h5]
  · intro hna
    cases h : s.fsm <;>
      simp only [ctrlStep, h] <;>
      split_ifs <;>
      simp_all [cmdAccept]

/-- Witness for C2: a command write accepted in the reset state clears all
seven latched event bits. -/
theorem C2_latched_flags_witness :
    (ctrlStep ctrlReset iCmdNone).cmddone = false ∧
    (ctrlStep ctrlReset iCmdNone).datadone = false ∧
    (ctrlStep ctrlReset iCmdNone).cerrtimeout = false ∧
    (ctrlStep ctrlReset iCmdNone).derrtimeout = false ∧
    (ctrlStep ctrlReset iCmdNone).derrwrite = false ∧
    (ctrlStep ctrlReset iCmdNone).cerrcrc_en = false ∧
    (ctrlStep ctrlReset iCmdNone).derrread_en = false :=
  (C2_latched_flags ctrlReset iCmdNone).1 (by decide)

/-- C10: for a command with response kind NONE the `cmdevt` crc-error bit
reads 0 throughout the cycle: command acceptance clears `cerrcrc_en`; with
`waitresp = NONE` no step ever sets `cerrcrc_en` (it is only set on the
SEND_CMD transition into RECV_RESP, which requires `waitresp` nonzero, and
that transition is never taken); and while `cerrcrc_en` is clear the
crc-error bit reads 0. -/
theorem C10_crc_err_low_for_none (s : CtrlState) (i : CtrlInput) :
    (cmdAccept s i → (ctrlStep s i).cerrcrc_en = false) ∧
    (s.cerrcrc_en = false → waitresp i = 0 → (ctrlStep s i).cerrcrc_en = false) ∧
    (s.cerrcrc_en = false → cmdevtCrcErr s = false) ∧
    (s.fsm = .SEND_CMD → waitresp i = 0 → (ctrlStep s i).fsm ≠ .RECV_RESP) := by
  refine ⟨?_, ?_, ?_, ?_⟩
  · rintro ⟨hf, h1, h2, h3, h4, h5⟩
    simp [ctrlStep, hf, h1, h2, h3, h4, h5]
  · intro he hw
    cases h : s.fsm <;> simp only [ctrlStep, h] <;> split_ifs <;> simp_all
  · intro he
    simp [cmdevtCrcErr, he]
  · intro hf hw
    simp only [ctrlStep, hf]
    split_ifs <;> simp_all

/-- Witness for C10: acceptance of a NONE-response command from reset keeps
`cerrcrc_en` clear, the crc-error bit reads 0 at reset, and a SEND_CMD step
with `waitresp = NONE` and the trailer byte accepted does not enter
RECV_RESP. -/
theorem C10_crc_err_low_for_none_witness :
    (ctrlStep ctrlReset iCmdNone).cerrcrc_en = false ∧
    cmdevtCrcErr ctrlReset = false ∧
    (ctrlStep { ctrlReset with fsm := .SEND_CMD, csel := 5 } iRdy0).fsm ≠
      .RECV_RESP :=
  ⟨(C10_crc_err_low_for_none ctrlReset iCmdNone).1 (by decide),
   (C10_crc_err_low_for_none ctrlReset iCmdNone).2.2.1 (by decide),
   (C10_crc_err_low_for_none { ctrlReset with fsm := .SEND_CMD, csel := 5 }
      iRdy0).2.2.2 (by decide) (by decide)⟩

/-- C1 counterexample: a command with response kind NONE issued from reset
(`command = 0`, accepted in IDLE, then six source bytes accepted) returns to
IDLE with `cmdevt.done = 1` but `dataevt.done = 0`: the SEND_CMD completion
path for `waitresp = NONE` sets only `cmddone` (`sdphy.py` lines 212-214),
so the claim that the cycle completes with `dataevt.done = 1` is false. -/
theorem C1_counterexample :
    (ctrlRun ctrlReset
      [iCmdNone, iRdy0, iRdy0, iRdy0, iRdy0, iRdy0, iRdy0]).fsm = .IDLE ∧
    cmdevtDone (ctrlRun ctrlReset
      [iCmdNone, iRdy0, iRdy0, iRdy0, iRdy0, iRdy0, iRdy0]) = true ∧
    dataevtDone (ctrlRun ctrlReset
      [iCmdNone, iRdy0, iRdy0, iRdy0, iRdy0, iRdy0, iRdy0]) = false := by
  decide

/-- C1 (amended): for a command with response kind NONE, acceptance clears
both done flags, the FSM stays in SEND_CMD while the six command bytes are
accepted, and after the sixth (CRC7 trailer) byte SEND_CMD returns directly
to IDLE with `cmdevt.done = 1` while `dataevt.done` remains 0; the control
FSM never enters RECV_RESP, RECV_DATA or SEND_DATA (a SEND_CMD step with
`waitresp = NONE` can only stay in SEND_CMD or go to IDLE). -/
theorem C1_none_response_cycle (s : CtrlState) (i0 i : CtrlInput)
    (hacc : cmdAccept s i0) (hcs : s.csel = 0)
    (hw : waitresp i = 0) (hr : i.source_ready = true) :
    (ctrlStep s i0).fsm = .SEND_CMD ∧
    (ctrlStep s i0).cmddone = false ∧
    (ctrlStep s i0).datadone = false ∧
    (∀ m, m ≤ 5 → (ctrlRunN i m (ctrlStep s i0)).fsm = .SEND_CMD ∧
      (ctrlRunN i m (ctrlStep s i0)).csel = m ∧
      (ctrlRunN i m (ctrlStep s i0)).datadone = false) ∧
    ((ctrlRunN i 6 (ctrlStep s i0)).fsm = .IDLE ∧
      cmdevtDone (ctrlRunN i 6 (ctrlStep s i0)) = true ∧
      dataevtDone (ctrlRunN i 6 (ctrlStep s i0)) = false) ∧
    (∀ (s' : CtrlState) (i' : CtrlInput), s'.fsm = .SEND_CMD → waitresp i' = 0 →
      (ctrlStep s' i').fsm = .SEND_CMD ∨ (ctrlStep s' i').fsm = .IDLE) := by
  obtain ⟨hf, h1, h2, h3, h4, h5⟩ := hacc
  have hstep : ctrlStep s i0 =
      { s with pos := 0, cmddone := false, cerrtimeout := false,
               cerrcrc_en := false, datadone := false, derrtimeout := false,
               derrwrite := false, derrread_en := false, debug := 0,
               response := 0, fsm := .SEND_CMD } := by
    simp [ctrlStep, hf, h1, h2, h3, h4, h5]
  have hloop : ∀ m, m ≤ 5 → ctrlRunN i m (ctrlStep s i0) =
      { s with pos := 0, cmddone := false, cerrtimeout := false,
               cerrcrc_en := false, datadone := false, derrtimeout := false,
               derrwrite := false, derrread_en := false, debug := 0,
               response := 0, fsm := .SEND_CMD, csel := m } := by
    intro m
    induction m with
    | zero =>
      intro _
      rw [ctrlRunN_zero, hstep, ← hcs]
    | succ m ih =>
      intro hm
      rw [ctrlRunN_succ, ih (by omega)]
      simp [ctrlStep, hr, show m < 5 by omega]
  refine ⟨by rw [hstep], by rw [hstep], by rw [hstep], ?_, ?_, ?_⟩
  · intro m hm
    rw [hloop m hm]
    exact ⟨rfl, rfl, rfl⟩
  · rw [show (6 : ℕ) = 5 + 1 from rfl, ctrlRunN_succ, hloop 5 (by omega)]
    simp [ctrlStep, cmdevtDone, dataevtDone, hr, hw]
  · intro s' i' hf' hw'
    simp only [ctrlStep, hf']
    split_ifs <;> simp_all

/-- Witness for C1 (amended): the concrete NONE-response cycle from reset
ends in IDLE with `cmdevt.done = 1` and `dataevt.done = 0`. -/
theorem C1_none_response_cycle_witness :
    (ctrlRunN iRdy0 6 (ctrlStep ctrlReset iCmdNone)).fsm = .IDLE ∧
    cmdevtDone (ctrlRunN iRdy0 6 (ctrlStep ctrlReset iCmdNone)) = true ∧
    dataevtDone (ctrlRunN iRdy0 6 (ctrlStep ctrlReset iCmdNone)) = false :=
  (C1_none_response_cycle ctrlReset iCmdNone iRdy0 (by decide) (by decide)
    (by decide) (by decide)).2.2.2.2.1

/-- C4: for a READ data transfer in which every returned byte has status OK
(and block requests are accepted each cycle), RECV_DATA presents a valid
block read request during each of the `blockcount + 1` loop iterations, the
block counter `blkcnt` counts 0..blockcount and returns to 0, and
`dataevt.done` is latched exactly once, at the final iteration, after which
the FSM is back in IDLE; combinationally, every OK-status DATA-channel byte
on the sink is forwarded to the CRC16 checker (valid/data passthrough with
the checker's ready flowing back). -/
theorem C4_recv_data_loop (s : CtrlState) (i : CtrlInput)
    (hf : s.fsm = .RECV_DATA) (hb : s.blkcnt = 0) (hd : s.datadone = false)
    (hr : i.source_ready = true) (hok : status i = 0) :
    (∀ m, m ≤ i.blockcount % 2 ^ 16 →
      (ctrlRunN i m s).fsm = .RECV_DATA ∧ (ctrlRunN i m s).blkcnt = m ∧
      dataevtDone (ctrlRunN i m s) = false ∧
      sourceValid (ctrlRunN i m s) i = true) ∧
    ((ctrlRunN i (i.blockcount % 2 ^ 16 + 1) s).fsm = .IDLE ∧
      (ctrlRunN i (i.blockcount % 2 ^ 16 + 1) s).blkcnt = 0 ∧
      dataevtDone (ctrlRunN i (i.blockcount % 2 ^ 16 + 1) s) = true) ∧
    (∀ s' : CtrlState, s'.fsm = .RECV_DATA → i.sink_ctrl % 2 = 1 →
      crc16checkerSinkValid s' i = i.sink_valid ∧
      crc16checkerSinkData s' i = i.sink_data % 256 ∧
      sinkReady s' i = i.crc16checker_sink_ready) := by
  have hloop : ∀ m, m ≤ i.blockcount % 2 ^ 16 →
      ctrlRunN i m s = { s with blkcnt := m } := by
    intro m
    induction m with
    | zero => intro _; rw [ctrlRunN_zero, ← hb]
    | succ m ih =>
      intro hm
      rw [ctrlRunN_succ, ih (by omega)]
      simp [ctrlStep, hf, hok, hr]
      omega
  refine ⟨?_, ?_, ?_⟩
  · intro m hm
    rw [hloop m hm]
    exact ⟨hf, rfl, hd, by simp [sourceValid, hf]⟩
  · rw [ctrlRunN_succ, hloop _ (le_refl _)]
    simp [ctrlStep, dataevtDone, hf, hok, hr]
  · intro s' hf' hc
    refine ⟨?_, ?_, ?_⟩
    · simp [crc16checkerSinkValid, hf', hc, hok]
    · simp [crc16checkerSinkData, hf', hc, hok]
    · simp [sinkReady, hf', hc, hok]

/-- Witness for C4: `blockcount = 2` with OK status and accepted requests
yields exactly 3 loop iterations — after 3 steps the FSM is in IDLE with
`blkcnt = 0` and `dataevt.done = 1` — and a concrete OK DATA byte is
presented to the CRC16 checker. -/
theorem C4_recv_data_loop_witness :
    ((ctrlRunN { inp0 with source_ready := true, blockcount := 2 } 3
        { ctrlReset with fsm := .RECV_DATA, datadone := false }).fsm = .IDLE ∧
      (ctrlRunN { inp0 with source_ready := true, blockcount := 2 } 3
        { ctrlReset with fsm := .RECV_DATA, datadone := false }).blkcnt = 0 ∧
      dataevtDone (ctrlRunN { inp0 with source_ready := true, blockcount := 2 } 3
        { ctrlReset with fsm := .RECV_DATA, datadone := false }) = true) :=
  (C4_recv_data_loop { ctrlReset with fsm := .RECV_DATA, datadone := false }
    { inp0 with source_ready := true, blockcount := 2 }
    (by decide) (by decide) (by decide) (by decide) (by decide)).2.1

/-- C5: during SEND_DATA, an acknowledgement byte on the sink whose status
differs from DATA_ACCEPTED sets `dataevt.write-error` in the next state, and
this never aborts the transfer: with a bad-status ack present on every step,
the block loop still runs over all `blockcount + 1` blocks (one CRC trailer
accepted per step here) and `dataevt.done` is latched at the end, with
write-error sticky throughout; moreover a bad ack alone (no trailer
completion in that step) never leaves SEND_DATA. -/
theorem C5_send_data_write_error (s : CtrlState) (i : CtrlInput)
    (hf : s.fsm = .SEND_DATA) (hb : s.blkcnt = 0) (hd : s.datadone = false)
    (hr : i.source_ready = true) (hg : i.crc16src_valid = true)
    (hl : i.crc16src_last = true) (hv : i.sink_valid = true)
    (hst : status i ≠ 2) :
    (∀ m, m ≤ i.blockcount % 2 ^ 16 →
      (ctrlRunN i m s).fsm = .SEND_DATA ∧ (ctrlRunN i m s).blkcnt = m ∧
      dataevtDone (ctrlRunN i m s) = false) ∧
    (∀ m, 1 ≤ m → m ≤ i.blockcount % 2 ^ 16 + 1 →
      dataevtWriteErr (ctrlRunN i m s) = true) ∧
    ((ctrlRunN i (i.blockcount % 2 ^ 16 + 1) s).fsm = .IDLE ∧
      (ctrlRunN i (i.blockcount % 2 ^ 16 + 1) s).blkcnt = 0 ∧
      dataevtDone (ctrlRunN i (i.blockcount % 2 ^ 16 + 1) s) = true ∧
      dataevtWriteErr (ctrlRunN i (i.blockcount % 2 ^ 16 + 1) s) = true) ∧
    (∀ (s' : CtrlState) (i' : CtrlInput), s'.fsm = .SEND_DATA →
      i'.sink_valid = true → status i' ≠ 2 →
      dataevtWriteErr (ctrlStep s' i') = true) ∧
    (∀ (s' : CtrlState) (i' : CtrlInput), s'.fsm = .SEND_DATA →
      ¬(i'.crc16src_valid = true ∧ i'.crc16src_last = true ∧
        i'.source_ready = true) →
      (ctrlStep s' i').fsm = .SEND_DATA) := by
  have hloop : ∀ m, m ≤ i.blockcount % 2 ^ 16 →
      (ctrlRunN i m s).fsm = .SEND_DATA ∧ (ctrlRunN i m s).blkcnt = m ∧
      (ctrlRunN i m s).datadone = false ∧
      (ctrlRunN i m s).derrwrite = (s.derrwrite || decide (1 ≤ m)) := by
    intro m
    induction m with
    | zero => intro _; rw [ctrlRunN_zero]; simp [hf, hb, hd]
    | succ m ih =>
      intro hm
      obtain ⟨h1, h2, h3, h4⟩ := ih (by omega)
      rw [ctrlRunN_succ]
      simp only [ctrlStep, h1]
      split_ifs
      all_goals simp_all
      all_goals omega
  have hfinal :
      (ctrlRunN i (i.blockcount % 2 ^ 16 + 1) s).fsm = .IDLE ∧
      (ctrlRunN i (i.blockcount % 2 ^ 16 + 1) s).blkcnt = 0 ∧
      (ctrlRunN i (i.blockcount % 2 ^ 16 + 1) s).datadone = true ∧
      (ctrlRunN i (i.blockcount % 2 ^ 16 + 1) s).derrwrite = true := by
    obtain ⟨h1, h2, h3, h4⟩ := hloop (i.blockcount % 2 ^ 16) (le_refl _)
    rw [ctrlRunN_succ]
    simp only [ctrlStep, h1]
    split_ifs <;> simp_all
  refine ⟨?_, ?_, ?_, ?_, ?_⟩
  · intro m hm
    obtain ⟨h1, h2, h3, _⟩ := hloop m hm
    exact ⟨h1, h2, h3⟩
  · intro m h1m hm
    rcases Nat.lt_or_ge m (i.blockcount % 2 ^ 16 + 1) with hlt | hge
    · obtain ⟨_, _, _, h4⟩ := hloop m (by omega)
      simp [dataevtWriteErr, h4, h1m]
    · have hmeq : m = i.blockcount % 2 ^ 16 + 1 := by omega
      rw [hmeq]
      exact hfinal.2.2.2
  · exact ⟨hfinal.1, hfinal.2.1, hfinal.2.2.1, hfinal.2.2.2⟩
  · intro s' i' hf' hv' hst'
    simp only [ctrlStep, hf', dataevtWriteErr]
    split_ifs <;> simp_all
  · intro s' i' hf' hno
    simp only [ctrlStep, hf']
    split_ifs <;> simp_all

/-- Witness for C5: a WRITE transfer with `blockcount = 2` and a
non-DATA_ACCEPTED ack (status OK = 0) present every step completes all three
blocks — IDLE, `blkcnt = 0`, `dataevt.done = 1` — with
`dataevt.write-error = 1`. -/
theorem C5_send_data_write_error_witness :
    (ctrlRunN iSendAck 3 sSendData).fsm = .IDLE ∧
    (ctrlRunN iSendAck 3 sSendData).blkcnt = 0 ∧
    dataevtDone (ctrlRunN iSendAck 3 sSendData) = true ∧
    dataevtWriteErr (ctrlRunN iSendAck 3 sSendData) = true :=
  (C5_send_data_write_error sSendData iSendAck
    (by decide) (by decide) (by decide) (by decide) (by decide) (by decide)
    (by decide) (by decide)).2.2.1

/-- C3 counterexample: the bit sampler `SDPHYCMDRFB` does not obey the
valid/ready handshake.  In the concrete state READ with `sel = 7` (a full
byte assembled) and `enable` high, `source.valid` is asserted while the
consumer's `ready` is low, yet after one step `sel` has been reset and
`source.valid` is deasserted: the frame is not held, it is dropped. -/
theorem C3_counterexample :
    rfbSourceValid { rfbReset with fsm := .READ, sel := 7, data := 85 }
      { enable := true, cmd_i := 1, source_ready := false } = true ∧
    ({ enable := true, cmd_i := 1, source_ready := false } : RfbInput).source_ready
      = false ∧
    rfbSourceValid
      (rfbStep { rfbReset with fsm := .READ, sel := 7, data := 85 }
        { enable := true, cmd_i := 1, source_ready := false })
      { enable := true, cmd_i := 1, source_ready := false } = false := by decide

/-- C3 (amended): the bit sampler `SDPHYCMDRFB` asserts `source.valid` for
exactly one cycle per assembled byte (in READ with `sel = 7`) and advances
regardless of the consumer's `ready`: after that cycle `sel` is 0 and
`source.valid` is deasserted for every input, so a byte whose cycle meets a
non-ready consumer is dropped.  By contrast, the control-side producer
`SDCtrl` does hold its frames in the pure-emission states (the CFG_* states
and SEND_CMD): with `source.valid` asserted and `ready` low the whole state
is unchanged, so the same frame with unchanged payload stays valid. -/
theorem C3_producer_handshake (s : RfbState) (i i' : RfbInput)
    (sc : CtrlState) (ic : CtrlInput) :
    (rfbSourceValid s i = true →
      (rfbStep s i).sel = 0 ∧ rfbSourceValid (rfbStep s i) i' = false) ∧
    ((sc.fsm = .CFG_TIMEOUT_DATA ∨ sc.fsm = .CFG_TIMEOUT_CMD ∨
      sc.fsm = .CFG_BLKSIZE ∨ sc.fsm = .CFG_VOLTAGE ∨ sc.fsm = .SEND_CMD) →
      ic.source_ready = false →
      ctrlStep sc ic = sc ∧ sourceValid sc ic = true) := by
  constructor
  · intro hv
    have h : s.fsm = .READ ∧ i.enable = true ∧ s.sel = 7 := by
      simpa [rfbSourceValid] using hv
    obtain ⟨h1, h2, h3⟩ := h
    constructor
    · simp [rfbStep, h1, h2, h3]
    · simp [rfbStep, rfbSourceValid, h1, h2, h3]
  · rintro (h | h | h | h | h) hr <;>
      exact ⟨by simp [ctrlStep, h, hr], by simp [sourceValid, h]⟩

/-- Witness for C3: the sampler's one-cycle pulse at a concrete state, and
`SDCtrl` holding its state in CFG_TIMEOUT_DATA under a stalled consumer. -/
theorem C3_producer_handshake_witness :
    ((rfbStep { rfbReset with fsm := .READ, sel := 7, data := 85 }
        { enable := true, cmd_i := 0, source_ready := false }).sel = 0 ∧
      rfbSourceValid
        (rfbStep { rfbReset with fsm := .READ, sel := 7, data := 85 }
          { enable := true, cmd_i := 0, source_ready := false })
        { enable := true, cmd_i := 0, source_ready := false } = false) ∧
    (ctrlStep { ctrlReset with fsm := .CFG_TIMEOUT_DATA } inp0 =
        { ctrlReset with fsm := .CFG_TIMEOUT_DATA } ∧
      sourceValid { ctrlReset with fsm := .CFG_TIMEOUT_DATA } inp0 = true) :=
  ⟨(C3_producer_handshake { rfbReset with fsm := .READ, sel := 7, data := 85 }
      { enable := true, cmd_i := 0, source_ready := false }
      { enable := true, cmd_i := 0, source_ready := false }
      { ctrlReset with fsm := .CFG_TIMEOUT_DATA } inp0).1 (by decide),
   (C3_producer_handshake { rfbReset with fsm := .READ, sel := 7, data := 85 }
      { enable := true, cmd_i := 0, source_ready := false }
      { enable := true, cmd_i := 0, source_ready := false }
      { ctrlReset with fsm := .CFG_TIMEOUT_DATA } inp0).2 (Or.inl (by decide))
      (by decide)⟩

/-- Helper for the C7 counterexample: with the maximal threshold
`cfgctimeout = 2 ^ 32 - 1` and no byte ever sampled, the 32-bit cycle
counter can never strictly exceed the threshold, so the reader stays in
CMD_READSTART forever. -/
theorem cmdrMaxThresholdStays (n : ℕ) :
    (cmdrRunN iMaxT n sReadStart).fsm = .CMD_READSTART ∧
    (cmdrRunN iMaxT n sReadStart).ctimeout = n % 2 ^ 32 := by
  induction n with
  | zero => exact ⟨rfl, rfl⟩
  | succ n ih =>
    obtain ⟨h1, h2⟩ := ih
    rw [cmdrRunN_succ]
    simp only [cmdrStep, h1]
    split_ifs
    all_goals simp_all [iMaxT]
    all_goals omega

/-- C7 counterexample: the claim quantifies over every configured threshold
`T`, and says TIMEOUT is entered iff the wait strictly exceeds `T`, at most
one cycle late.  With `T = 2 ^ 32 - 1` (the maximal 32-bit threshold) after
`T + 2` waiting cycles — one cycle past the point where the wait strictly
exceeds the threshold, where the claim requires the TIMEOUT state — the
reader is still not in TIMEOUT: the 32-bit counter wraps and can never
strictly exceed the threshold. -/
theorem C7_counterexample :
    2 ^ 32 - 1 + 2 > iMaxT.cfgctimeout ∧
    (cmdrRunN iMaxT (2 ^ 32 - 1 + 2) sReadStart).fsm ≠ .TIMEOUT := by
  refine ⟨by norm_num [iMaxT], ?_⟩
  have h := (cmdrMaxThresholdStays (2 ^ 32 - 1 + 2)).1
  intro hc
  rw [h] at hc
  exact CmdrFsm.noConfusion hc

/-- C7 (amended): for every configured command-timeout threshold
`T ≤ 2 ^ 32 - 2`, while the reader waits in CMD_READSTART with no sampled
byte, it stays in CMD_READSTART with the counter equal to the number of
cycles waited for the first `T + 1` cycles, and enters TIMEOUT exactly after
`T + 2` cycles — never earlier, never more than one cycle after the wait
first strictly exceeds `T`.  A sampled byte always wins: from CMD_READSTART
with the FIFO valid the next state is CMD_READ, and TIMEOUT can only ever be
entered from CMD_READSTART with no byte available and the counter strictly
above the threshold.  (For `T = 2 ^ 32 - 1` the counter can never exceed the
threshold and TIMEOUT is never entered; see the counterexample.) -/
theorem C7_cmd_timeout_threshold (T : ℕ) (i : CmdrInput) (s : CmdrState)
    (hT : T ≤ 2 ^ 32 - 2) (hcfg : i.cfgctimeout = T) (hff : i.fifo_valid = false)
    (hs : s.fsm = .CMD_READSTART) (hc : s.ctimeout = 0) :
    (∀ n, n ≤ T + 1 → (cmdrRunN i n s).fsm = .CMD_READSTART ∧
      (cmdrRunN i n s).ctimeout = n) ∧
    (cmdrRunN i (T + 2) s).fsm = .TIMEOUT ∧
    (∀ (s' : CmdrState) (i' : CmdrInput), s'.fsm = .CMD_READSTART →
      i'.fifo_valid = true → (cmdrStep s' i').fsm = .CMD_READ) ∧
    (∀ (s' : CmdrState) (i' : CmdrInput), s'.fsm ≠ .TIMEOUT →
      (cmdrStep s' i').fsm = .TIMEOUT →
      s'.fsm = .CMD_READSTART ∧ i'.fifo_valid = false ∧
      s'.ctimeout > i'.cfgctimeout % 2 ^ 32) := by
  have hloop : ∀ n, n ≤ T + 1 → (cmdrRunN i n s).fsm = .CMD_READSTART ∧
      (cmdrRunN i n s).ctimeout = n := by
    intro n
    induction n with
    | zero => intro _; exact ⟨hs, hc⟩
    | succ n ih =>
      intro hn
      obtain ⟨h1, h2⟩ := ih (by omega)
      rw [cmdrRunN_succ]
      simp only [cmdrStep, h1]
      split_ifs <;> simp_all <;> omega
  refine ⟨hloop, ?_, ?_, ?_⟩
  · obtain ⟨h1, h2⟩ := hloop (T + 1) (le_refl _)
    rw [show T + 2 = (T + 1) + 1 from rfl, cmdrRunN_succ]
    simp only [cmdrStep, h1]
    split_ifs
    all_goals simp_all
    all_goals omega
  · intro s' i' hf' hv'
    simp [cmdrStep, hf', hv']
  · intro s' i' hne hto
    cases h : s'.fsm <;> rw [h] at hne <;> simp only [cmdrStep, h] at hto <;>
      split_ifs at hto <;> simp_all

/-- Witness for C7 (amended) at `T = 2`: three no-byte cycles stay in
CMD_READSTART with the counter at 3, and the fourth cycle enters TIMEOUT. -/
theorem C7_cmd_timeout_threshold_witness :
    (cmdrRunN iT2 3 sReadStart).fsm = .CMD_READSTART ∧
    (cmdrRunN iT2 3 sReadStart).ctimeout = 3 ∧
    (cmdrRunN iT2 4 sReadStart).fsm = .TIMEOUT :=
  ⟨((C7_cmd_timeout_threshold 2 iT2 sReadStart (by norm_num) (by decide)
      (by decide) (by decide) (by decide)).1 3 (by omega)).1,
   ((C7_cmd_timeout_threshold 2 iT2 sReadStart (by norm_num) (by decide)
      (by decide) (by decide) (by decide)).1 3 (by omega)).2,
   (C7_cmd_timeout_threshold 2 iT2 sReadStart (by norm_num) (by decide)
      (by decide) (by decide) (by decide)).2.1⟩

/-- C8 counterexample: the claim says streaming any written configuration
register out and applying it in the `SDPHYCFG` latch yields the framer's
copy equal to the written register value, including `voltage`.  Writing
`voltage = 2` and streaming it (one byte, mode CFG_VOLTAGE) leaves
`cfgvoltage = 0`: the latch keeps only bit 0 of the voltage byte
(`cfgvoltage` is a 1-bit signal assigned `sink.data[0]`), so the framer's
copy does not equal the written 8-bit register value. -/
theorem C8_counterexample :
    ({ inp0 with voltage := 2, source_ready := true } : CtrlInput).voltage = 2 ∧
    (cfgRun cfgReset (ctrlEmission { ctrlReset with fsm := .CFG_VOLTAGE }
      { inp0 with voltage := 2, source_ready := true } 1)).cfgvoltage = 0 := by
  decide

/-- C8 (amended): configuration round-trip.  From the matching CFG_* state
(entered from IDLE on the register's write strobe) with `pos = 0` and an
accepting consumer, `SDCtrl` streams the field out byte-by-byte — 4 bytes
for the 32-bit timeouts, 2 for block size, 1 for voltage, each tagged with
its mode/offset — and returns to IDLE when the last byte is accepted;
applying each emitted byte in the `SDPHYCFG` latch at the offset encoded in
the mode makes `cfgdtimeout` / `cfgctimeout` / `cfgblksize` equal to the
written register value, and `cfgvoltage` equal to bit 0 of the written
voltage byte (the latch keeps only the voltage-mode bit).  A configuration
write strobe arriving while a command is in flight (SEND_CMD, RECV_RESP,
RECV_DATA, SEND_DATA) is not serviced in that state: the step does not
depend on the strobes there. -/
theorem C8_cfg_roundtrip (c : CfgState) (s : CtrlState) (i : CtrlInput) :
    (s.fsm = .CFG_TIMEOUT_DATA → s.pos = 0 → i.source_ready = true →
      i.datatimeout < 2 ^ 32 → c.cfgdtimeout < 2 ^ 32 →
      (ctrlRunN i 4 s).fsm = .IDLE ∧
      (cfgRun c (ctrlEmission s i 4)).cfgdtimeout = i.datatimeout) ∧
    (s.fsm = .CFG_TIMEOUT_CMD → s.pos = 0 → i.source_ready = true →
      i.cmdtimeout < 2 ^ 32 → c.cfgctimeout < 2 ^ 32 →
      (ctrlRunN i 4 s).fsm = .IDLE ∧
      (cfgRun c (ctrlEmission s i 4)).cfgctimeout = i.cmdtimeout) ∧
    (s.fsm = .CFG_BLKSIZE → s.pos = 0 → i.source_ready = true →
      i.blocksize < 2 ^ 16 → c.cfgblksize < 2 ^ 16 →
      (ctrlRunN i 2 s).fsm = .IDLE ∧
      (cfgRun c (ctrlEmission s i 2)).cfgblksize = i.blocksize) ∧
    (s.fsm = .CFG_VOLTAGE → i.source_ready = true →
      (ctrlRunN i 1 s).fsm = .IDLE ∧
      (cfgRun c (ctrlEmission s i 1)).cfgvoltage = i.voltage % 2) ∧
    ((s.fsm = .SEND_CMD ∨ s.fsm = .RECV_RESP ∨ s.fsm = .RECV_DATA ∨
      s.fsm = .SEND_DATA) → ctrlStep s i = ctrlStep s (clearCfgStrobes i)) := by
  refine ⟨?_, ?_, ?_, ?_, ?_⟩
  · intro hf hp hr hv hc
    have e1 : ctrlStep s i = { s with pos := 1, fsm := .CFG_TIMEOUT_DATA } := by
      simp [ctrlStep, hf, hp, hr]
    have e2 : ctrlStep { s with pos := 1, fsm := .CFG_TIMEOUT_DATA } i =
        { s with pos := 2, fsm := .CFG_TIMEOUT_DATA } := by
      simp [ctrlStep, hr]
    have e3 : ctrlStep { s with pos := 2, fsm := .CFG_TIMEOUT_DATA } i =
        { s with pos := 3, fsm := .CFG_TIMEOUT_DATA } := by
      simp [ctrlStep, hr]
    have e4 : ctrlStep { s with pos := 3, fsm := .CFG_TIMEOUT_DATA } i =
        { s with pos := 0, fsm := .IDLE } := by
      simp [ctrlStep, hr]
    constructor
    · rw [show (4 : ℕ) = 0 + 1 + 1 + 1 + 1 from rfl, ctrlRunN_succ,
          ctrlRunN_succ, ctrlRunN_succ, ctrlRunN_succ, ctrlRunN_zero,
          e1, e2, e3, e4]
    · rw [show (4 : ℕ) = 0 + 1 + 1 + 1 + 1 from rfl, ctrlEmission_succ, e1,
          ctrlEmission_succ, e2, ctrlEmission_succ, e3, ctrlEmission_succ, e4,
          ctrlEmission_zero]
      simp [sourceData, sourceCtrl, sourceMode, sourceCmddata, sourceRdwr,
            hf, hp, cfgRun, cfgStep]
      exact setBits_bytes32 c.cfgdtimeout i.datatimeout hc hv
  · intro hf hp hr hv hc
    have e1 : ctrlStep s i = { s with pos := 1, fsm := .CFG_TIMEOUT_CMD } := by
      simp [ctrlStep, hf, hp, hr]
    have e2 : ctrlStep { s with pos := 1, fsm := .CFG_TIMEOUT_CMD } i =
        { s with pos := 2, fsm := .CFG_TIMEOUT_CMD } := by
      simp [ctrlStep, hr]
    have e3 : ctrlStep { s with pos := 2, fsm := .CFG_TIMEOUT_CMD } i =
        { s with pos := 3, fsm := .CFG_TIMEOUT_CMD } := by
      simp [ctrlStep, hr]
    have e4 : ctrlStep { s with pos := 3, fsm := .CFG_TIMEOUT_CMD } i =
        { s with pos := 0, fsm := .IDLE } := by
      simp [ctrlStep, hr]
    constructor
    · rw [show (4 : ℕ) = 0 + 1 + 1 + 1 + 1 from rfl, ctrlRunN_succ,
          ctrlRunN_succ, ctrlRunN_succ, ctrlRunN_succ, ctrlRunN_zero,
          e1, e2, e3, e4]
    · rw [show (4 : ℕ) = 0 + 1 + 1 + 1 + 1 from rfl, ctrlEmission_succ, e1,
          ctrlEmission_succ, e2, ctrlEmission_succ, e3, ctrlEmission_succ, e4,
          ctrlEmission_zero]
      simp [sourceData, sourceCtrl, sourceMode, sourceCmddata, sourceRdwr,
            hf, hp, cfgRun, cfgStep]
      exact setBits_bytes32 c.cfgctimeout i.cmdtimeout hc hv
  · intro hf hp hr hv hc
    have e1 : ctrlStep s i = { s with pos := 1, fsm := .CFG_BLKSIZE } := by
      simp [ctrlStep, hf, hp, hr]
    have e2 : ctrlStep { s with pos := 1, fsm := .CFG_BLKSIZE } i =
        { s with pos := 2, fsm := .IDLE } := by
      simp [ctrlStep, hr]
    constructor
    · rw [show (2 : ℕ) = 0 + 1 + 1 from rfl, ctrlRunN_succ, ctrlRunN_succ,
          ctrlRunN_zero, e1, e2]
    · rw [show (2 : ℕ) = 0 + 1 + 1 from rfl, ctrlEmission_succ, e1,
          ctrlEmission_succ, e2, ctrlEmission_zero]
      simp [sourceData, sourceCtrl, sourceMode, sourceCmddata, sourceRdwr,
            hf, hp, cfgRun, cfgStep]
      exact setBits_bytes16 c.cfgblksize i.blocksize hc hv
  · intro hf hr
    have e1 : ctrlStep s i = { s with fsm := .IDLE } := by
      simp [ctrlStep, hf, hr]
    constructor
    · rw [show (1 : ℕ) = 0 + 1 from rfl, ctrlRunN_succ, ctrlRunN_zero, e1]
    · rw [show (1 : ℕ) = 0 + 1 from rfl, ctrlEmission_succ, e1,
          ctrlEmission_zero]
      simp [sourceData, sourceCtrl, sourceMode, sourceCmddata, sourceRdwr,
            hf, cfgRun, cfgStep]
      omega
  · rintro (h | h | h | h) <;> simp only [ctrlStep, h] <;> rfl

/-- Witness for C8 (amended): writing `datatimeout = 0x12345678` and
`blocksize = 512` round-trips into the framer copies, `voltage = 3` latches
bit 0, and a SEND_CMD step ignores the configuration strobes. -/
theorem C8_cfg_roundtrip_witness :
    (cfgRun cfgReset (ctrlEmission { ctrlReset with fsm := .CFG_TIMEOUT_DATA }
      { inp0 with datatimeout := 305419896, source_ready := true } 4)).cfgdtimeout
      = 305419896 ∧
    (cfgRun cfgReset (ctrlEmission { ctrlReset with fsm := .CFG_BLKSIZE }
      { inp0 with blocksize := 512, source_ready := true } 2)).cfgblksize
      = 512 ∧
    (cfgRun cfgReset (ctrlEmission { ctrlReset with fsm := .CFG_VOLTAGE }
      { inp0 with voltage := 3, source_ready := true } 1)).cfgvoltage = 1 ∧
    ctrlStep { ctrlReset with fsm := .SEND_CMD }
        { inp0 with datatimeout_re := true, blocksize_re := true } =
      ctrlStep { ctrlReset with fsm := .SEND_CMD }
        (clearCfgStrobes { inp0 with datatimeout_re := true, blocksize_re := true }) :=
  ⟨((C8_cfg_roundtrip cfgReset { ctrlReset with fsm := .CFG_TIMEOUT_DATA }
      { inp0 with datatimeout := 305419896, source_ready := true }).1
      (by decide) (by decide) (by decide) (by decide) (by decide)).2,
   ((C8_cfg_roundtrip cfgReset { ctrlReset with fsm := .CFG_BLKSIZE }
      { inp0 with blocksize := 512, source_ready := true }).2.2.1
      (by decide) (by decide) (by decide) (by decide) (by decide)).2,
   by
    have h := ((C8_cfg_roundtrip cfgReset { ctrlReset with fsm := .CFG_VOLTAGE }
      { inp0 with voltage := 3, source_ready := true }).2.2.2.1
      (by decide) (by decide)).2
    simpa using h,
   (C8_cfg_roundtrip cfgReset { ctrlReset with fsm := .SEND_CMD }
      { inp0 with datatimeout_re := true, blocksize_re := true }).2.2.2.2
      (Or.inl (by decide))⟩

end LiteSDCard
